import Mathlib

/-!
Shallow embedding of the streaming-response observer of
`opentelemetry/instrumentation/anthropic/streaming.py` (openllmetry).

The module wraps an Anthropic streaming response iterator: it forwards every
stream item unchanged to the consumer, folds each item into a mutable
`complete_response` accumulator, and on normal exhaustion records metrics and
finalizes the span.  Python dictionaries with optional keys are embedded as
structures of `Option` fields; the generator is embedded as a function from
the finite source item list (plus the points at which the source or the
consumer raises) to the forwarded item list, the termination mode, the final
accumulator and the ordered list of externally observable telemetry effects.
-/

namespace AnthropicStreaming

/-- Usage mapping: the four keys the streaming code reads
(`input_tokens`, `output_tokens`, `cache_read_input_tokens`,
`cache_creation_input_tokens`), each optionally present. -/
structure UsageDict where
  input_tokens : Option Nat := none
  output_tokens : Option Nat := none
  cache_read_input_tokens : Option Nat := none
  cache_creation_input_tokens : Option Nat := none
  deriving Repr, DecidableEq

/-- Python truthiness of a usage dict value: an empty mapping is falsy. -/
def UsageDict.isTruthy (u : UsageDict) : Bool :=
  u.input_tokens.isSome || u.output_tokens.isSome ||
    u.cache_read_input_tokens.isSome || u.cache_creation_input_tokens.isSome

/-- One slot of `complete_response["events"]`: the dict
`\x7b"index": index, "text": text\x7d`, to which `message_delta` later adds a
`finish_reason` key (`none` = key absent). -/
structure StreamEvent where
  index : Nat
  text : String
  finish_reason : Option String := none
  deriving Repr, DecidableEq

/-- The accumulator `complete_response`.  `usage = none` means the `"usage"`
key is absent from the dict (the generators initialize it to `some \x7b\x7d`,
an empty-but-present mapping). -/
structure CompleteResponse where
  events : List StreamEvent
  model : String
  usage : Option UsageDict
  deriving Repr, DecidableEq

/-- Initial accumulator `complete_response = \x7b"events": [], "model": "", "usage": \x7b\x7d\x7d`
(line 153 resp. 228 of streaming.py). -/
def initialResponse : CompleteResponse :=
  { events := [], model := "", usage := some {} }

/-- Truthiness of `complete_response.get("usage")`: the key must be present
and the dict non-empty. -/
def CompleteResponse.usageTruthy (c : CompleteResponse) : Bool :=
  match c.usage with
  | none => false
  | some u => u.isTruthy

/-- One stream item, as far as `_process_response_item` inspects it.
`message_delta` carries `delta.stop_reason` and an optional (`none` = falsy)
usage delta.  `text_delta i t` stands for an item with
`type == "content_block_delta"` and `delta.type == "text_delta"`; every other
shape (including non-text content-block deltas) falls through the `elif`
chain without mutation and is embedded as `unrecognized`. -/
inductive RawItem where
  | message_start (model : String) (usage : UsageDict)
  | content_block_start (index : Nat)
  | text_delta (index : Nat) (text : String)
  | message_delta (stop_reason : String) (usage : Option UsageDict)
  | unrecognized
  deriving Repr, DecidableEq

/-- In-place update of the list element at position `i`
(`events[index]["text"] += ...`); out-of-range leaves the list unchanged. -/
def modifyAt (f : StreamEvent → StreamEvent) : Nat → List StreamEvent → List StreamEvent
  | _, [] => []
  | 0, e :: es => f e :: es
  | n + 1, e :: es => e :: modifyAt f n es

/-- Embedding of `_process_response_item` (streaming.py lines 22-43).  The function is
decorated `@dont_throw`; the only raising site in it is the `text_delta`
indexing, whose `IndexError` leaves the accumulator unchanged, embedded here
by the range guard. -/
def _process_response_item (item : RawItem) (c : CompleteResponse) : CompleteResponse :=
  match item with
  | RawItem.message_start m u =>
      { c with model := m, usage := some u }
  | RawItem.content_block_start index =>
      if c.events.length ≤ index then
        { c with events := c.events ++ [{ index := index, text := "" }] }
      else c
  | RawItem.text_delta index t =>
      if index < c.events.length then
        { c with events := modifyAt (fun e => { e with text := e.text ++ t }) index c.events }
      else c
  | RawItem.message_delta r u =>
      let c1 := { c with events := c.events.map (fun e => { e with finish_reason := some r }) }
      match u with
      | none => c1
      | some ud =>
          match c1.usage with
          | some cu =>
              { c1 with usage := some { cu with
                  output_tokens := some (ud.output_tokens.getD 0 + cu.output_tokens.getD 0) } }
          | none => { c1 with usage := some ud }
  | RawItem.unrecognized => c

/-- Folding a list of stream items into the accumulator, in order. -/
def foldResponse (items : List RawItem) (c : CompleteResponse) : CompleteResponse :=
  items.foldl (fun acc it => _process_response_item it acc) c

example :
    (_process_response_item (RawItem.content_block_start 1) initialResponse).events =
      [{ index := 1, text := "", finish_reason := none }] := by decide

example :
    (foldResponse
      [RawItem.content_block_start 0,
       RawItem.text_delta 0 "Hel", RawItem.text_delta 0 "lo",
       RawItem.content_block_start 1,
       RawItem.text_delta 1 "Wor", RawItem.text_delta 1 "ld!",
       RawItem.message_delta "end_turn" none] initialResponse).events =
      [{ index := 0, text := "Hello", finish_reason := some "end_turn" },
       { index := 1, text := "World!", finish_reason := some "end_turn" }] := by decide

example :
    (foldResponse
      [RawItem.message_delta "end_turn" (some { output_tokens := some 5 }),
       RawItem.message_delta "end_turn" (some { output_tokens := some 7 })]
      initialResponse).usage = some { output_tokens := some 12 } := by decide

/-- Span attribute keys used by the streaming module (the semantic-convention
constants and the per-index f-string keys of `_set_completions`). -/
inductive AttrKey where
  | usage_prompt_tokens
  | usage_completion_tokens
  | usage_total_tokens
  | response_model
  | usage_cache_read_input_tokens
  | usage_cache_creation_input_tokens
  | completion_content (index : Nat)
  | completion_finish_reason (index : Nat)
  deriving Repr, DecidableEq

/-- A span attribute value: an integer or a string. -/
inductive AttrVal where
  | int (n : Int)
  | str (s : String)
  deriving Repr, DecidableEq

/-- Token-type label on token-histogram observations. -/
inductive TokenType where
  | input
  | output
  deriving Repr, DecidableEq

/-- Externally observable telemetry actions, in program order.
`exceptionCounterAdd e` carries the exception identity from which
`error_metrics_attributes` derives the attributes; `durationRecord c` carries
the accumulator from which `shared_metrics_attributes` derives the shared
attributes; `logWarning` stands for a caught-and-logged internal failure. -/
inductive Effect where
  | exceptionCounterAdd (e : Nat)
  | durationRecord (c : CompleteResponse)
  | setAttr (k : AttrKey) (v : AttrVal)
  | tokenHistRecord (value : Int) (ttype : TokenType)
  | choiceCounterAdd (finish_reason : Option String)
  | addEvent (content : String) (index : Nat) (finish_reason : Option String)
  | setStatusOK
  | spanEnd
  | logWarning
  deriving Repr, DecidableEq

/-- Collaborator presence and configuration flags, snapshotted per stream:
which optional instruments were passed, the two `Config` globals read at
finalization, the `should_send_prompts()` outcome and `span.is_recording()`. -/
structure Cfg where
  token_histogram : Bool
  choice_counter : Bool
  duration_histogram : Bool
  exception_counter : Bool
  enrich_token_usage : Bool
  use_legacy_attributes : Bool
  send_prompts : Bool
  span_is_recording : Bool
  deriving Repr, DecidableEq

/-- External token-counting collaborators:
`count_prompt_tokens_from_request(instance, kwargs)` and
`instance.count_tokens`. -/
structure Env where
  promptTokensFromRequest : Nat
  countTokens : String → Nat

/-- Failure injection for the telemetry collaborators during finalization:
`durationFails` — `duration_histogram.record` raises;
`resolutionFails` — the token-count resolution (token counter) raises;
`tokenUsageFailsAfter = some k` — a collaborator inside `_set_token_usage`
(span attribute setter, token histogram, choice counter) raises after `k`
effects; `completionsFailsAfter = some k` — likewise inside
`_set_completions`. -/
structure Failures where
  durationFails : Bool := false
  resolutionFails : Bool := false
  tokenUsageFailsAfter : Option Nat := none
  completionsFailsAfter : Option Nat := none
  deriving Repr, DecidableEq

/-- No collaborator failure. -/
def noFailures : Failures := {}

/-- Modelled from the spec: `set_span_attribute` (utils.py, not under src/)
sets the attribute only when the value is present and non-default — absent
(`None`) and empty-string values are skipped. -/
def setSpanAttribute (k : AttrKey) (v : Option AttrVal) : List Effect :=
  match v with
  | none => []
  | some (AttrVal.str s) => if s = "" then [] else [Effect.setAttr k (AttrVal.str s)]
  | some w => [Effect.setAttr k w]

/-- Embedding of `_set_token_usage` (streaming.py lines 46-105).  In this embedding
`prompt_tokens` and `completion_tokens` are always integers, so the Python
`type(...) is int` guards reduce to the `>= 0` checks. -/
def _set_token_usage (cfg : Cfg) (complete_response : CompleteResponse)
    (prompt_tokens completion_tokens : Int) : List Effect :=
  let usageD := complete_response.usage.getD {}
  let cache_read_tokens : Int := (usageD.cache_read_input_tokens.getD 0 : Nat)
  let cache_creation_tokens : Int := (usageD.cache_creation_input_tokens.getD 0 : Nat)
  let input_tokens := prompt_tokens + cache_read_tokens + cache_creation_tokens
  let total_tokens := input_tokens + completion_tokens
  setSpanAttribute AttrKey.usage_prompt_tokens (some (AttrVal.int input_tokens)) ++
  setSpanAttribute AttrKey.usage_completion_tokens (some (AttrVal.int completion_tokens)) ++
  setSpanAttribute AttrKey.usage_total_tokens (some (AttrVal.int total_tokens)) ++
  setSpanAttribute AttrKey.response_model (some (AttrVal.str complete_response.model)) ++
  setSpanAttribute AttrKey.usage_cache_read_input_tokens (some (AttrVal.int cache_read_tokens)) ++
  setSpanAttribute AttrKey.usage_cache_creation_input_tokens (some (AttrVal.int cache_creation_tokens)) ++
  (if cfg.token_histogram && decide (0 ≤ input_tokens) then
    [Effect.tokenHistRecord input_tokens TokenType.input] else []) ++
  (if cfg.token_histogram && decide (0 ≤ completion_tokens) then
    [Effect.tokenHistRecord completion_tokens TokenType.output] else []) ++
  (if cfg.choice_counter then
    complete_response.events.map (fun e => Effect.choiceCounterAdd e.finish_reason) else [])

/-- Embedding of `_emit_completion_event` (streaming.py lines 107-115): the
`finish_reason` payload field is included only when truthy. -/
def _emit_completion_event (content : String) (index : Nat)
    (finish_reason : Option String) : Effect :=
  Effect.addEvent content index
    (match finish_reason with
     | some r => if r = "" then none else some r
     | none => none)

/-- The legacy branch of `_set_completions`: per event, indexed by the
stored `event.get("index")`, first `finish_reason` then `content`. -/
def legacyCompletionEffects : List StreamEvent → List Effect
  | [] => []
  | e :: es =>
      setSpanAttribute (AttrKey.completion_finish_reason e.index)
        (e.finish_reason.map AttrVal.str) ++
      setSpanAttribute (AttrKey.completion_content e.index)
        (some (AttrVal.str e.text)) ++
      legacyCompletionEffects es

/-- The event branch of `_set_completions`: `for i, event in enumerate(events)`,
one completion event per slot, indexed by enumeration position. -/
def emitCompletionEvents (i : Nat) : List StreamEvent → List Effect
  | [] => []
  | e :: es => _emit_completion_event e.text i e.finish_reason :: emitCompletionEvents (i + 1) es

/-- Embedding of `_set_completions` (streaming.py lines 118-139). -/
def _set_completions (cfg : Cfg) (events : List StreamEvent) : List Effect :=
  if !cfg.span_is_recording || events.isEmpty then []
  else if cfg.use_legacy_attributes then legacyCompletionEffects events
  else emitCompletionEvents 0 events

/-- Concatenation of the truthy event texts
(`if event.get("text"): completion_content += event.get("text")`). -/
def concatEventTexts : List StreamEvent → String
  | [] => ""
  | e :: es => (if e.text = "" then "" else e.text) ++ concatEventTexts es

/-- The token resolution of the sync generator (streaming.py lines 176-195):
`completion_tokens` starts at `-1`; prompt tokens come from reported usage or
the external request counter; completion tokens from reported usage, else
from counting the concatenated event texts when events exist and a model
name was recorded, else stay `-1`. -/
def resolveTokens (env : Env) (c : CompleteResponse) : Int × Int :=
  let completion_tokens : Int := -1
  let prompt_tokens : Int :=
    if c.usageTruthy then ((c.usage.getD {}).input_tokens.getD 0 : Nat)
    else (env.promptTokensFromRequest : Nat)
  let completion_tokens : Int :=
    if c.usageTruthy then ((c.usage.getD {}).output_tokens.getD 0 : Nat)
    else if !c.events.isEmpty then
      if c.model ≠ "" then (env.countTokens (concatEventTexts c.events) : Nat)
      else completion_tokens
    else completion_tokens
  (prompt_tokens, completion_tokens)

/-- The token resolution of the async generator (streaming.py lines 250-269):
identical, except that the `completion_tokens = -1` initialization is
missing, so when usage is falsy and no (non-empty events with a model name)
exist, `completion_tokens` is referenced before assignment — a `NameError`,
embedded as `none`. -/
def aresolveTokens (env : Env) (c : CompleteResponse) : Option (Int × Int) :=
  let prompt_tokens : Int :=
    if c.usageTruthy then ((c.usage.getD {}).input_tokens.getD 0 : Nat)
    else (env.promptTokensFromRequest : Nat)
  if c.usageTruthy then
    some (prompt_tokens, ((c.usage.getD {}).output_tokens.getD 0 : Nat))
  else if !c.events.isEmpty && c.model ≠ "" then
    some (prompt_tokens, (env.countTokens (concatEventTexts c.events) : Nat))
  else none

/-- Finalization of the sync generator after normal exhaustion (streaming.py
lines 164-213).  Modelled from the spec: `dont_throw` (utils.py, not under
src/) catches and logs any telemetry failure escaping the generator body, so
a raising `duration_histogram.record` aborts the remaining finalization
without surfacing; the token-enrichment block's own `try/except` is in src
and logs and continues. -/
def finalize (cfg : Cfg) (env : Env) (f : Failures) (c : CompleteResponse) : List Effect :=
  if cfg.duration_histogram && f.durationFails then [Effect.logWarning]
  else
    (if cfg.duration_histogram then [Effect.durationRecord c] else []) ++
    (if cfg.enrich_token_usage then
      if f.resolutionFails then [Effect.logWarning]
      else
        let pc := resolveTokens env c
        match f.tokenUsageFailsAfter with
        | some k => (_set_token_usage cfg c pc.1 pc.2).take k ++ [Effect.logWarning]
        | none => _set_token_usage cfg c pc.1 pc.2
     else []) ++
    (if cfg.send_prompts then
      match f.completionsFailsAfter with
      | some k => (_set_completions cfg c.events).take k ++ [Effect.logWarning]
      | none => _set_completions cfg c.events
     else []) ++
    [Effect.setStatusOK, Effect.spanEnd]

/-- Finalization of the async generator (streaming.py lines 239-287): as the
sync one, except that the missing `completion_tokens` initialization makes
the whole token block fall to its `except` (`NameError`, logged) whenever
`aresolveTokens` yields nothing. -/
def afinalize (cfg : Cfg) (env : Env) (f : Failures) (c : CompleteResponse) : List Effect :=
  if cfg.duration_histogram && f.durationFails then [Effect.logWarning]
  else
    (if cfg.duration_histogram then [Effect.durationRecord c] else []) ++
    (if cfg.enrich_token_usage then
      if f.resolutionFails then [Effect.logWarning]
      else
        match aresolveTokens env c with
        | none => [Effect.logWarning]
        | some pc =>
          match f.tokenUsageFailsAfter with
          | some k => (_set_token_usage cfg c pc.1 pc.2).take k ++ [Effect.logWarning]
          | none => _set_token_usage cfg c pc.1 pc.2
     else []) ++
    (if cfg.send_prompts then
      match f.completionsFailsAfter with
      | some k => (_set_completions cfg c.events).take k ++ [Effect.logWarning]
      | none => _set_completions cfg c.events
     else []) ++
    [Effect.setStatusOK, Effect.spanEnd]

/-- How the wrapped stream ends for the consumer. -/
inductive Termination where
  | normal
  | sourceRaised (e : Nat)
  | consumerRaised (e : Nat)
  deriving Repr, DecidableEq

/-- Result of the per-item loop: items forwarded to the consumer, the
accumulator, the effects so far, and the exception the consumer threw into
the generator, if any. -/
structure LoopResult where
  forwarded : List RawItem
  response : CompleteResponse
  effects : List Effect
  consumerError : Option Nat
  deriving Repr, DecidableEq

/-- The `for item in response: try: yield item except ...` loop (streaming.py
lines 154-162).  `throwAt = some (j, e)` means the consumer throws exception
`e` into the generator at the yield of the item at position `j`; the `except`
then derives `error_metrics_attributes`, bumps the exception counter when
configured, and re-raises, so the accumulator is not updated with that item.
Otherwise each yielded item is folded into the accumulator after the yield
returns. -/
def runLoop (cfg : Cfg) (throwAt : Option (Nat × Nat)) :
    List RawItem → Nat → CompleteResponse → LoopResult
  | [], _, c => ⟨[], c, [], none⟩
  | item :: rest, pos, c =>
    match throwAt with
    | some (j, e) =>
      if j = pos then
        ⟨[item], c, if cfg.exception_counter then [Effect.exceptionCounterAdd e] else [], some e⟩
      else
        let r := runLoop cfg throwAt rest (pos + 1) (_process_response_item item c)
        ⟨item :: r.forwarded, r.response, r.effects, r.consumerError⟩
    | none =>
        let r := runLoop cfg throwAt rest (pos + 1) (_process_response_item item c)
        ⟨item :: r.forwarded, r.response, r.effects, r.consumerError⟩

/-- Consumer-visible outcome of one whole wrapped stream. -/
structure RunResult where
  forwarded : List RawItem
  termination : Termination
  effects : List Effect
  response : CompleteResponse
  deriving Repr, DecidableEq

/-- Embedding of `build_from_streaming_response` (streaming.py lines 141-213), run against
a source that produces `items` and then either ends normally
(`pullError = none`) or raises (`pullError = some e`; the pull exception is
outside the `try` around the yield, so it propagates to the consumer with no
counter bump and no finalization). -/
def build_from_streaming_response (cfg : Cfg) (env : Env) (f : Failures)
    (items : List RawItem) (pullError : Option Nat) (throwAt : Option (Nat × Nat)) : RunResult :=
  let r := runLoop cfg throwAt items 0 initialResponse
  match r.consumerError with
  | some e => ⟨r.forwarded, Termination.consumerRaised e, r.effects, r.response⟩
  | none =>
    match pullError with
    | some e => ⟨r.forwarded, Termination.sourceRaised e, r.effects, r.response⟩
    | none =>
        ⟨r.forwarded, Termination.normal, r.effects ++ finalize cfg env f r.response, r.response⟩

/-- Embedding of `abuild_from_streaming_response` (streaming.py lines 216-287): the async
generator.  Cooperative suspension at the pull and yield points resumes the
same single accumulator with no concurrent mutation, so the loop is the same
fold; only the finalization differs (missing `completion_tokens`
initialization). -/
def abuild_from_streaming_response (cfg : Cfg) (env : Env) (f : Failures)
    (items : List RawItem) (pullError : Option Nat) (throwAt : Option (Nat × Nat)) : RunResult :=
  let r := runLoop cfg throwAt items 0 initialResponse
  match r.consumerError with
  | some e => ⟨r.forwarded, Termination.consumerRaised e, r.effects, r.response⟩
  | none =>
    match pullError with
    | some e => ⟨r.forwarded, Termination.sourceRaised e, r.effects, r.response⟩
    | none =>
        ⟨r.forwarded, Termination.normal, r.effects ++ afinalize cfg env f r.response, r.response⟩

/-- The six token/usage attribute keys set by `_set_token_usage`. -/
def isUsageKey : AttrKey → Bool
  | AttrKey.usage_prompt_tokens => true
  | AttrKey.usage_completion_tokens => true
  | AttrKey.usage_total_tokens => true
  | AttrKey.response_model => true
  | AttrKey.usage_cache_read_input_tokens => true
  | AttrKey.usage_cache_creation_input_tokens => true
  | _ => false

/-- Effects that constitute token-usage telemetry: token-usage span
attributes (including the response-model attribute set alongside them),
token-histogram observations, and per-finish-reason choice-counter bumps. -/
def isTokenUsageEffect : Effect → Bool
  | Effect.tokenHistRecord _ _ => true
  | Effect.choiceCounterAdd _ => true
  | Effect.setAttr k _ => isUsageKey k
  | _ => false

/-- The completion-tokens span attribute. -/
def isCompletionTokensAttr : Effect → Bool
  | Effect.setAttr AttrKey.usage_completion_tokens _ => true
  | _ => false

/-- Effects producible by `_set_completions`: per-index completion span
attributes or structured completion span events. -/
def isCompletionOutput : Effect → Bool
  | Effect.setAttr (AttrKey.completion_content _) _ => true
  | Effect.setAttr (AttrKey.completion_finish_reason _) _ => true
  | Effect.addEvent _ _ _ => true
  | _ => false

/-- A duration-histogram observation. -/
def isDurationRecord : Effect → Bool
  | Effect.durationRecord _ => true
  | _ => false

/-- Contiguity of the accumulator's event slots starting at position `n`. -/
def indexedFrom : Nat → List StreamEvent → Bool
  | _, [] => true
  | n, e :: es => (e.index == n) && indexedFrom (n + 1) es

/-- The spec invariant: `events[i].index == i` for all `i`. -/
def contigIdx (c : CompleteResponse) : Bool :=
  indexedFrom 0 c.events

/-- A fixed token-counting environment for concrete evaluations. -/
def env0 : Env :=
  { promptTokensFromRequest := 3, countTokens := fun s => s.length }

/-- With no consumer-thrown exception, the loop forwards every item, folds
them all into the accumulator, and produces no effects. -/
theorem runLoop_none (cfg : Cfg) (items : List RawItem) (pos : Nat) (c : CompleteResponse) :
    runLoop cfg none items pos c = ⟨items, foldResponse items c, [], none⟩ := by
  induction items generalizing pos c with
  | nil => rfl
  | cons it rest ih => simp [runLoop, foldResponse, List.foldl, ih, foldResponse]

/-- When the consumer throws `e` into the generator at the yield of item `j`,
the loop has forwarded items `0..j`, folded only items `0..j-1`, and its only
effect is the conditional exception-counter bump. -/
theorem runLoop_throw (cfg : Cfg) (e : Nat) (items : List RawItem) (j pos : Nat)
    (c : CompleteResponse) (h : j < items.length) :
    runLoop cfg (some (pos + j, e)) items pos c =
      ⟨items.take (j + 1), foldResponse (items.take j) c,
       if cfg.exception_counter then [Effect.exceptionCounterAdd e] else [], some e⟩ := by
  induction items generalizing j pos c with
  | nil => simp at h
  | cons it rest ih =>
    cases j with
    | zero => simp [runLoop, foldResponse]
    | succ j' =>
      have harg : pos + (j' + 1) = (pos + 1) + j' := by omega
      have hne : (pos + 1) + j' ≠ pos := by omega
      have hlen : j' < rest.length := by simpa using h
      rw [harg]
      simp only [runLoop, if_neg hne, ih j' (pos + 1) (_process_response_item it c) hlen,
        List.take_succ_cons]
      simp [foldResponse]

/-- Anything `set_span_attribute k v` emits is a `setAttr` on the key `k`. -/
theorem setSpanAttribute_mem {k : AttrKey} {v : Option AttrVal} {e : Effect}
    (h : e ∈ setSpanAttribute k v) : ∃ w, e = Effect.setAttr k w := by
  cases v with
  | none => simp [setSpanAttribute] at h
  | some w =>
    cases w with
    | int n =>
      simp [setSpanAttribute] at h
      exact ⟨_, h⟩
    | str s =>
      by_cases hs : s = "" <;> simp [setSpanAttribute, hs] at h
      exact ⟨_, h⟩

/-- Every effect of `_set_token_usage` is token-usage telemetry. -/
theorem _set_token_usage_shape {cfg : Cfg} {c : CompleteResponse} {pt ct : Int} {e : Effect}
    (h : e ∈ _set_token_usage cfg c pt ct) : isTokenUsageEffect e = true := by
  simp only [_set_token_usage, List.mem_append] at h
  rcases h with ((((((((h | h) | h) | h) | h) | h) | h) | h) | h)
  all_goals first
  | (obtain ⟨w, rfl⟩ := setSpanAttribute_mem h; rfl)
  | (revert h
     split
     · intro h
       simp only [List.mem_singleton] at h
       subst h
       rfl
     · intro h
       simp at h)
  | (revert h
     split
     · intro h
       obtain ⟨ev, _, rfl⟩ := List.mem_map.mp h
       rfl
     · intro h
       simp at h)

/-- Every effect of the legacy completion branch is a per-index completion
attribute. -/
theorem legacyCompletionEffects_shape {evs : List StreamEvent} {e : Effect}
    (h : e ∈ legacyCompletionEffects evs) : isCompletionOutput e = true := by
  induction evs with
  | nil => simp [legacyCompletionEffects] at h
  | cons ev rest ih =>
    simp only [legacyCompletionEffects, List.mem_append] at h
    rcases h with (h | h) | h
    · obtain ⟨w, rfl⟩ := setSpanAttribute_mem h; rfl
    · obtain ⟨w, rfl⟩ := setSpanAttribute_mem h; rfl
    · exact ih h

/-- Every effect of the event-mode completion branch is a completion event. -/
theorem emitCompletionEvents_shape {i : Nat} {evs : List StreamEvent} {e : Effect}
    (h : e ∈ emitCompletionEvents i evs) : isCompletionOutput e = true := by
  induction evs generalizing i with
  | nil => simp [emitCompletionEvents] at h
  | cons ev rest ih =>
    simp only [emitCompletionEvents, List.mem_cons] at h
    rcases h with rfl | h
    · rfl
    · exact ih h

/-- Every effect of `_set_completions` is completion output. -/
theorem _set_completions_shape {cfg : Cfg} {evs : List StreamEvent} {e : Effect}
    (h : e ∈ _set_completions cfg evs) : isCompletionOutput e = true := by
  simp only [_set_completions] at h
  revert h
  split
  · intro h; simp at h
  · split
    · exact fun h => legacyCompletionEffects_shape h
    · exact fun h => emitCompletionEvents_shape h

/-- If every element of a list fails the predicate, its count is zero. -/
theorem countP_zero_of_shape {p : Effect → Bool} {l : List Effect}
    (h : ∀ e ∈ l, p e = false) : l.countP p = 0 := by
  rw [List.countP_eq_zero]
  intro a ha
  simp [h a ha]

/-- C1: For every finite sequence of stream items produced by the source
iterator — under any configuration, collaborator presence, telemetry failure
injection, and whether or not the source raises after those items — the
wrapped generator returned by `build_from_streaming_response` yields exactly
the same items, unchanged and in the same order, as the unwrapped source
produces them: telemetry is a pure side channel. -/
theorem C1_passthrough (cfg : Cfg) (env : Env) (f : Failures)
    (items : List RawItem) (pullError : Option Nat) :
    (build_from_streaming_response cfg env f items pullError none).forwarded = items := by
  cases pullError <;> simp [build_from_streaming_response, runLoop_none]

/-- C2: If the source iterator raises exception `e` after emitting the items
of `items`, the consumer of the wrapped generator receives exactly those
items followed by that same exception, and the span is never closed: neither
a set-status nor a span-end effect occurs on that stream. -/
theorem C2_source_error_passthrough (cfg : Cfg) (env : Env) (f : Failures)
    (items : List RawItem) (e : Nat) :
    (build_from_streaming_response cfg env f items (some e) none).forwarded = items ∧
    (build_from_streaming_response cfg env f items (some e) none).termination =
      Termination.sourceRaised e ∧
    Effect.setStatusOK ∉ (build_from_streaming_response cfg env f items (some e) none).effects ∧
    Effect.spanEnd ∉ (build_from_streaming_response cfg env f items (some e) none).effects := by
  simp [build_from_streaming_response, runLoop_none]

/-- C3: For every stream, whatever telemetry collaborators fail during
finalization (a raising duration histogram, token counter, token histogram,
choice counter or span attribute setter, injected through `Failures`), the
failure is caught and logged and does not propagate to the consumer: the
stream terminates normally and the consumer-visible item sequence is exactly
the source sequence. -/
theorem C3_telemetry_failures_contained (cfg : Cfg) (env : Env) (f : Failures)
    (items : List RawItem) :
    (build_from_streaming_response cfg env f items none none).forwarded = items ∧
    (build_from_streaming_response cfg env f items none none).termination =
      Termination.normal ∧
    ((cfg.duration_histogram && f.durationFails) = true →
      Effect.logWarning ∈ (build_from_streaming_response cfg env f items none none).effects) ∧
    ((cfg.enrich_token_usage && f.resolutionFails) = true →
      Effect.logWarning ∈ (build_from_streaming_response cfg env f items none none).effects) ∧
    (∀ k : Nat, cfg.enrich_token_usage = true → f.tokenUsageFailsAfter = some k →
      Effect.logWarning ∈ (build_from_streaming_response cfg env f items none none).effects) ∧
    (∀ k : Nat, cfg.send_prompts = true → f.completionsFailsAfter = some k →
      Effect.logWarning ∈ (build_from_streaming_response cfg env f items none none).effects) := by
  have hb : build_from_streaming_response cfg env f items none none =
      ⟨items, Termination.normal,
        finalize cfg env f (foldResponse items initialResponse),
        foldResponse items initialResponse⟩ := by
    simp [build_from_streaming_response, runLoop_none]
  rw [hb]
  refine ⟨rfl, rfl, ?_, ?_, ?_, ?_⟩
  · intro h
    simp [finalize, h]
  · intro h
    rw [Bool.and_eq_true] at h
    by_cases hd : (cfg.duration_histogram && f.durationFails) = true
    · simp [finalize, hd]
    · simp [finalize, hd, h.1, h.2]
  · intro k he hk
    by_cases hd : (cfg.duration_histogram && f.durationFails) = true
    · simp [finalize, hd]
    · by_cases hr : f.resolutionFails = true
      · simp [finalize, hd, he, hr]
      · simp [finalize, hd, he, hr, hk]
  · intro k hs hk
    by_cases hd : (cfg.duration_histogram && f.durationFails) = true
    · simp [finalize, hd]
    · simp [finalize, hd, hs, hk]

/-- Witness for C3 at a concrete stream where every injectable collaborator
failure is switched on. -/
theorem C3_witness :
    (build_from_streaming_response
        { token_histogram := true, choice_counter := true, duration_histogram := true,
          exception_counter := true, enrich_token_usage := true,
          use_legacy_attributes := true, send_prompts := true, span_is_recording := true }
        env0
        { durationFails := true, resolutionFails := true,
          tokenUsageFailsAfter := some 0, completionsFailsAfter := some 0 }
        [RawItem.message_start "claude-3" {}] none none).forwarded =
      [RawItem.message_start "claude-3" {}] ∧
    (build_from_streaming_response
        { token_histogram := true, choice_counter := true, duration_histogram := true,
          exception_counter := true, enrich_token_usage := true,
          use_legacy_attributes := true, send_prompts := true, span_is_recording := true }
        env0
        { durationFails := true, resolutionFails := true,
          tokenUsageFailsAfter := some 0, completionsFailsAfter := some 0 }
        [RawItem.message_start "claude-3" {}] none none).termination =
      Termination.normal ∧
    Effect.logWarning ∈
      (build_from_streaming_response
        { token_histogram := true, choice_counter := true, duration_histogram := true,
          exception_counter := true, enrich_token_usage := true,
          use_legacy_attributes := true, send_prompts := true, span_is_recording := true }
        env0
        { durationFails := true, resolutionFails := true,
          tokenUsageFailsAfter := some 0, completionsFailsAfter := some 0 }
        [RawItem.message_start "claude-3" {}] none none).effects := by
  have h := C3_telemetry_failures_contained
    { token_histogram := true, choice_counter := true, duration_histogram := true,
      exception_counter := true, enrich_token_usage := true,
      use_legacy_attributes := true, send_prompts := true, span_is_recording := true }
    env0
    { durationFails := true, resolutionFails := true,
      tokenUsageFailsAfter := some 0, completionsFailsAfter := some 0 }
    [RawItem.message_start "claude-3" {}]
  exact ⟨h.1, h.2.1, h.2.2.1 (by decide)⟩

/-- Count of a shapeless element in a list all of whose elements satisfy a
shape predicate is zero. -/
theorem count_zero_of_shape {p : Effect → Bool} {l : List Effect} {a : Effect}
    (hshape : ∀ e ∈ l, p e = true) (ha : p a = false) : l.count a = 0 :=
  List.count_eq_zero.mpr (fun h => by rw [hshape a h] at ha; exact Bool.noConfusion ha)

/-- countP for a predicate excluded by a shape predicate is zero. -/
theorem countP_zero_of_excluded {p q : Effect → Bool} {l : List Effect}
    (hshape : ∀ e ∈ l, p e = true) (hpq : ∀ e, p e = true → q e = false) :
    l.countP q = 0 :=
  countP_zero_of_shape (fun e he => hpq e (hshape e he))

/-- set_span_attribute on a key the predicate rejects contributes nothing. -/
theorem countP_setSpanAttribute_zero {p : Effect → Bool} (k : AttrKey) (v : Option AttrVal)
    (hp : ∀ w, p (Effect.setAttr k w) = false) : (setSpanAttribute k v).countP p = 0 :=
  countP_zero_of_shape (fun e he => by obtain ⟨w, rfl⟩ := setSpanAttribute_mem he; exact hp w)

/-- Lemma: `_set_token_usage` sets the completion-tokens span attribute exactly
once (the value is an integer, which `set_span_attribute` never skips). -/
theorem _set_token_usage_completionAttr_count (cfg : Cfg) (c : CompleteResponse)
    (pt ct : Int) :
    (_set_token_usage cfg c pt ct).countP isCompletionTokensAttr = 1 := by
  simp only [_set_token_usage, List.countP_append]
  rw [countP_setSpanAttribute_zero AttrKey.usage_prompt_tokens _ (fun w => rfl),
    countP_setSpanAttribute_zero AttrKey.usage_total_tokens _ (fun w => rfl),
    countP_setSpanAttribute_zero AttrKey.response_model _ (fun w => rfl),
    countP_setSpanAttribute_zero AttrKey.usage_cache_read_input_tokens _ (fun w => rfl),
    countP_setSpanAttribute_zero AttrKey.usage_cache_creation_input_tokens _ (fun w => rfl)]
  have h2 : (setSpanAttribute AttrKey.usage_completion_tokens
      (some (AttrVal.int ct))).countP isCompletionTokensAttr = 1 := rfl
  rw [h2]
  have h8 : ∀ (b : Bool) (v : Int) (t : TokenType),
      ((if b = true then [Effect.tokenHistRecord v t] else []) : List Effect).countP
        isCompletionTokensAttr = 0 := by
    intro b v t; cases b <;> rfl
  have h9 : ((if cfg.choice_counter = true then
      c.events.map (fun e => Effect.choiceCounterAdd e.finish_reason) else
        []) : List Effect).countP isCompletionTokensAttr = 0 := by
    split
    · exact countP_zero_of_shape (fun e he => by
        obtain ⟨ev, _, rfl⟩ := List.mem_map.mp he; rfl)
    · rfl
  rw [h8, h8, h9]

/-- Token-usage effects are never a duration record, a status set, or a span
end. -/
theorem tokenUsage_not_duration : ∀ e : Effect, isTokenUsageEffect e = true →
    isDurationRecord e = false := by
  intro e hp
  cases e <;> simp_all [isTokenUsageEffect, isDurationRecord]

/-- Completion output is never a duration record. -/
theorem completionOutput_not_duration : ∀ e : Effect, isCompletionOutput e = true →
    isDurationRecord e = false := by
  intro e hp
  cases e <;> simp_all [isCompletionOutput, isDurationRecord]

/-- Completion output never sets the completion-tokens usage attribute. -/
theorem completionOutput_not_completionTokensAttr : ∀ e : Effect,
    isCompletionOutput e = true → isCompletionTokensAttr e = false := by
  intro e hp
  cases e <;> try rfl
  case setAttr k v => cases k <;> simp_all [isCompletionOutput, isCompletionTokensAttr]

/-- Finalization with no collaborator failure, laid out as its four blocks. -/
theorem finalize_noFailures_eq (cfg : Cfg) (env : Env) (c : CompleteResponse) :
    finalize cfg env noFailures c =
      (if cfg.duration_histogram = true then [Effect.durationRecord c] else []) ++
      (if cfg.enrich_token_usage = true then
        _set_token_usage cfg c (resolveTokens env c).1 (resolveTokens env c).2 else []) ++
      (if cfg.send_prompts = true then _set_completions cfg c.events else []) ++
      [Effect.setStatusOK, Effect.spanEnd] := by
  simp [finalize, noFailures]

/-- C4: For every finite source consumed to normal exhaustion (including a
zero-item source), with no collaborator failure, the finalization sequence
runs exactly once per stream: the stream ends normally, exactly one span-end
and one set-status-OK effect occur, exactly one duration observation occurs
when a duration recorder is configured (none otherwise), and the token-usage
block (counted by its unconditional completion-tokens attribute) runs
exactly once when token enrichment is enabled (never otherwise). -/
theorem C4_finalization_exactly_once (cfg : Cfg) (env : Env) (items : List RawItem) :
    (build_from_streaming_response cfg env noFailures items none none).termination =
      Termination.normal ∧
    (build_from_streaming_response cfg env noFailures items none none).effects.count
      Effect.spanEnd = 1 ∧
    (build_from_streaming_response cfg env noFailures items none none).effects.count
      Effect.setStatusOK = 1 ∧
    (build_from_streaming_response cfg env noFailures items none none).effects.countP
      isDurationRecord = (if cfg.duration_histogram = true then 1 else 0) ∧
    (build_from_streaming_response cfg env noFailures items none none).effects.countP
      isCompletionTokensAttr = (if cfg.enrich_token_usage = true then 1 else 0) := by
  have hb : build_from_streaming_response cfg env noFailures items none none =
      ⟨items, Termination.normal,
        finalize cfg env noFailures (foldResponse items initialResponse),
        foldResponse items initialResponse⟩ := by
    simp [build_from_streaming_response, runLoop_none]
  set c := foldResponse items initialResponse with hc
  have hTU := fun (e : Effect) (he : e ∈ _set_token_usage cfg c
    (resolveTokens env c).1 (resolveTokens env c).2) => _set_token_usage_shape he
  have hSC := fun (e : Effect) (he : e ∈ _set_completions cfg c.events) =>
    _set_completions_shape he
  have hTUspan : (_set_token_usage cfg c (resolveTokens env c).1
      (resolveTokens env c).2).count Effect.spanEnd = 0 :=
    count_zero_of_shape hTU rfl
  have hTUok : (_set_token_usage cfg c (resolveTokens env c).1
      (resolveTokens env c).2).count Effect.setStatusOK = 0 :=
    count_zero_of_shape hTU rfl
  have hTUdur : (_set_token_usage cfg c (resolveTokens env c).1
      (resolveTokens env c).2).countP isDurationRecord = 0 :=
    countP_zero_of_excluded hTU tokenUsage_not_duration
  have hTUct : (_set_token_usage cfg c (resolveTokens env c).1
      (resolveTokens env c).2).countP isCompletionTokensAttr = 1 :=
    _set_token_usage_completionAttr_count cfg c _ _
  have hSCspan : (_set_completions cfg c.events).count Effect.spanEnd = 0 :=
    count_zero_of_shape hSC rfl
  have hSCok : (_set_completions cfg c.events).count Effect.setStatusOK = 0 :=
    count_zero_of_shape hSC rfl
  have hSCdur : (_set_completions cfg c.events).countP isDurationRecord = 0 :=
    countP_zero_of_excluded hSC completionOutput_not_duration
  have hSCct : (_set_completions cfg c.events).countP isCompletionTokensAttr = 0 :=
    countP_zero_of_excluded hSC completionOutput_not_completionTokensAttr
  rw [hb, finalize_noFailures_eq]
  refine ⟨rfl, ?_, ?_, ?_, ?_⟩ <;>
    cases hD : cfg.duration_histogram <;> cases hE : cfg.enrich_token_usage <;>
      cases hS : cfg.send_prompts <;>
      simp [List.count_append, List.countP_append, hTUspan, hTUok, hTUdur, hTUct,
        hSCspan, hSCok, hSCdur, hSCct, List.count_cons, List.countP_cons,
        isDurationRecord, isCompletionTokensAttr]

/-- Contiguity over an appended slot. -/
theorem indexedFrom_append_singleton (l : List StreamEvent) (x : StreamEvent) (n : Nat) :
    indexedFrom n (l ++ [x]) = (indexedFrom n l && (x.index == n + l.length)) := by
  induction l generalizing n with
  | nil => simp [indexedFrom]
  | cons e es ih =>
    show ((e.index == n) && indexedFrom (n + 1) (es ++ [x])) =
      (((e.index == n) && indexedFrom (n + 1) es) && (x.index == n + (es.length + 1)))
    have harith : (n + 1) + es.length = n + (es.length + 1) := by omega
    rw [ih, harith, Bool.and_assoc]

/-- Index-preserving maps keep contiguity. -/
theorem indexedFrom_map (f : StreamEvent → StreamEvent) (hf : ∀ e, (f e).index = e.index)
    (l : List StreamEvent) (n : Nat) : indexedFrom n (l.map f) = indexedFrom n l := by
  induction l generalizing n with
  | nil => rfl
  | cons e es ih => simp [indexedFrom, hf, ih]

/-- Index-preserving point updates keep contiguity. -/
theorem indexedFrom_modifyAt (f : StreamEvent → StreamEvent) (hf : ∀ e, (f e).index = e.index)
    (i n : Nat) (l : List StreamEvent) : indexedFrom n (modifyAt f i l) = indexedFrom n l := by
  induction l generalizing n i with
  | nil => cases i <;> rfl
  | cons e es ih =>
    cases i with
    | zero => simp [modifyAt, indexedFrom, hf]
    | succ i' => simp [modifyAt, indexedFrom, ih]

/-- A `message_delta` item rewrites every event slot's finish reason and
nothing else of the event list. -/
theorem processItem_message_delta_events (c : CompleteResponse) (r : String)
    (u : Option UsageDict) :
    (_process_response_item (RawItem.message_delta r u) c).events =
      c.events.map (fun e => { e with finish_reason := some r }) := by
  cases u with
  | none => rfl
  | some ud => cases hc : c.usage <;> simp [_process_response_item, hc]

/-- C5 (amended): applying a BlockStart appends a new slot, recording the
given index, whenever that index is at least the current event count — a
gapped index silently creates a slot too.  The contiguity invariant
`events[i].index == i` is therefore only preserved by mutations whose
BlockStart index does not exceed the current event count (as in the expected
contiguous protocol), and a gapped BlockStart breaks it. -/
theorem C5_block_start_append (c : CompleteResponse) (item : RawItem) (i : Nat) :
    ((_process_response_item (RawItem.content_block_start i) c).events =
      (if c.events.length ≤ i then
        c.events ++ [{ index := i, text := "", finish_reason := none }]
       else c.events)) ∧
    (contigIdx c = true →
      (∀ j : Nat, item = RawItem.content_block_start j → j ≤ c.events.length) →
      contigIdx (_process_response_item item c) = true) := by
  constructor
  · simp only [_process_response_item]
    split <;> rfl
  · intro hc hguard
    cases item with
    | message_start m u => exact hc
    | content_block_start j =>
        have hj : j ≤ c.events.length := hguard j rfl
        simp only [_process_response_item]
        split
        · next hle =>
            have hj' : j = c.events.length := Nat.le_antisymm hj hle
            show indexedFrom 0 _ = true
            rw [indexedFrom_append_singleton]
            unfold contigIdx at hc
            simp [hc, hj']
        · exact hc
    | text_delta j t =>
        simp only [_process_response_item]
        split
        · show indexedFrom 0
            (modifyAt (fun e => { e with text := e.text ++ t }) j c.events) = true
          rw [indexedFrom_modifyAt (fun e => { e with text := e.text ++ t }) (fun e => rfl)]
          exact hc
        · exact hc
    | message_delta r u =>
        show indexedFrom 0 (_process_response_item (RawItem.message_delta r u) c).events = true
        rw [processItem_message_delta_events,
          indexedFrom_map (fun e => { e with finish_reason := some r }) (fun e => rfl)]
        exact hc
    | unrecognized => exact hc

/-- C5 counterexample: a gapped BlockStart (index 1 on an empty accumulator,
where the current event count is 0 and no slot with that index exists) does
silently create a slot, and the created slot breaks `events[i].index == i`. -/
theorem C5_counterexample :
    initialResponse.events.length = 0 ∧
    (1 : Nat) ≠ initialResponse.events.length ∧
    (_process_response_item (RawItem.content_block_start 1) initialResponse).events =
      [{ index := 1, text := "", finish_reason := none }] ∧
    contigIdx (_process_response_item (RawItem.content_block_start 1) initialResponse) =
      false := by
  refine ⟨rfl, by decide, rfl, rfl⟩

/-- Witness for C5 (amended) at a concrete in-protocol BlockStart. -/
theorem C5_witness :
    contigIdx initialResponse = true ∧
    contigIdx (_process_response_item (RawItem.content_block_start 0) initialResponse) =
      true :=
  ⟨rfl, (C5_block_start_append initialResponse (RawItem.content_block_start 0) 0).2 rfl
    (fun j hj => by injection hj with h; rw [← h]; exact Nat.zero_le _)⟩

/-- A configuration whose only configured instrument is the exception
counter. -/
def cfgExc : Cfg :=
  { token_histogram := false, choice_counter := false, duration_histogram := false,
    exception_counter := true, enrich_token_usage := false,
    use_legacy_attributes := false, send_prompts := false, span_is_recording := true }

/-- C6 counterexample: with an exception counter configured and a source
whose very first pull raises exception 7, the generator produces NO effects
at all — in particular no error-classification/error-counter increment — and
re-raises; the claim's predicted counter increment on the pull path does not
happen (the `except` that bumps the counter wraps the yield, not the pull). -/
theorem C6_counterexample :
    (build_from_streaming_response cfgExc env0 noFailures [] (some 7) none).effects = [] ∧
    (build_from_streaming_response cfgExc env0 noFailures [] (some 7) none).termination =
      Termination.sourceRaised 7 ∧
    Effect.exceptionCounterAdd 7 ∉
      (build_from_streaming_response cfgExc env0 noFailures [] (some 7) none).effects := by
  refine ⟨rfl, rfl, by decide⟩

/-- C6 (amended): a pull-side exception re-raises the same exception to the
consumer without finalizing the span, but with no error-attribute
computation and no error-counter increment; the error classification and the
counter increment (when a counter is configured) happen instead when the
consumer throws an exception into the generator at a yield point, and that
exception is then re-raised, likewise without finalizing the span. -/
theorem C6_error_paths (cfg : Cfg) (env : Env) (f : Failures) (items : List RawItem)
    (e j : Nat) (hj : j < items.length) :
    ((build_from_streaming_response cfg env f items (some e) none).termination =
        Termination.sourceRaised e ∧
      (build_from_streaming_response cfg env f items (some e) none).forwarded = items ∧
      (build_from_streaming_response cfg env f items (some e) none).effects = []) ∧
    ((build_from_streaming_response cfg env f items none (some (j, e))).termination =
        Termination.consumerRaised e ∧
      (build_from_streaming_response cfg env f items none (some (j, e))).forwarded =
        items.take (j + 1) ∧
      (build_from_streaming_response cfg env f items none (some (j, e))).effects =
        (if cfg.exception_counter = true then [Effect.exceptionCounterAdd e] else []) ∧
      Effect.spanEnd ∉
        (build_from_streaming_response cfg env f items none (some (j, e))).effects ∧
      Effect.setStatusOK ∉
        (build_from_streaming_response cfg env f items none (some (j, e))).effects) := by
  have hloop := runLoop_throw cfg e items j 0 initialResponse hj
  rw [Nat.zero_add] at hloop
  constructor
  · refine ⟨?_, ?_, ?_⟩ <;> simp [build_from_streaming_response, runLoop_none]
  · have hb : build_from_streaming_response cfg env f items none (some (j, e)) =
        ⟨items.take (j + 1), Termination.consumerRaised e,
          if cfg.exception_counter = true then [Effect.exceptionCounterAdd e] else [],
          foldResponse (items.take j) initialResponse⟩ := by
      simp [build_from_streaming_response, hloop]
    rw [hb]
    refine ⟨rfl, rfl, rfl, ?_, ?_⟩ <;> cases hx : cfg.exception_counter <;> simp

/-- Witness for C6 (amended): consumer throws exception 5 at the yield of
item 1; the configured exception counter is bumped once with the attributes
classified from that exception. -/
theorem C6_witness :
    (build_from_streaming_response cfgExc env0 noFailures
        [RawItem.unrecognized, RawItem.unrecognized] none (some (1, 5))).effects =
      [Effect.exceptionCounterAdd 5] := by
  simpa using (C6_error_paths cfgExc env0 noFailures
    [RawItem.unrecognized, RawItem.unrecognized] 5 1 (by decide)).2.2.2.1

/-- C7: applying a StreamEnd (`message_delta`) item sets `finish_reason` on
every existing event slot to the end reason; a usage delta adds its
`output_tokens` (absent treated as 0) to the running total while leaving the
other usage fields untouched, unless the usage key was never set, in which
case the delta becomes the full usage snapshot; concretely, two usage-bearing
end items with output_tokens 5 then 7 applied to a fresh stream accumulator
leave a final output_tokens of 12. -/
theorem C7_message_delta_semantics (c : CompleteResponse) (r : String) (u : UsageDict) :
    (∀ i : Nat,
      (_process_response_item (RawItem.message_delta r (some u)) c).events[i]? =
        (c.events[i]?).map (fun ev => { ev with finish_reason := some r })) ∧
    (c.usage = none →
      (_process_response_item (RawItem.message_delta r (some u)) c).usage = some u) ∧
    (∀ cu : UsageDict, c.usage = some cu →
      (_process_response_item (RawItem.message_delta r (some u)) c).usage =
        some { cu with
          output_tokens := some (u.output_tokens.getD 0 + cu.output_tokens.getD 0) }) ∧
    (foldResponse
        [RawItem.message_delta "end_turn" (some { output_tokens := some 5 }),
         RawItem.message_delta "end_turn" (some { output_tokens := some 7 })]
        initialResponse).usage = some { output_tokens := some 12 } := by
  refine ⟨?_, ?_, ?_, by decide⟩
  · intro i
    rw [processItem_message_delta_events]
    simp
  · intro h
    simp [_process_response_item, h]
  · intro cu h
    simp [_process_response_item, h]

/-- Witness for C7: one usage-bearing end item on the fresh accumulator
(present-but-empty usage dict) leaves output_tokens = 5 + 0. -/
theorem C7_witness :
    (_process_response_item (RawItem.message_delta "end_turn"
        (some { output_tokens := some 5 })) initialResponse).usage =
      some { output_tokens := some 5 } := by
  simpa using (C7_message_delta_semantics initialResponse "end_turn"
    { output_tokens := some 5 }).2.2.1 {} rfl

/-- C8 counterexample: a second StreamStart applied to an accumulator whose
model is already non-empty does NOT leave the model unchanged:
`message_start` overwrites it. -/
theorem C8_counterexample :
    (_process_response_item (RawItem.message_start "claude-3-opus" {})
      initialResponse).model = "claude-3-opus" ∧
    (_process_response_item (RawItem.message_start "claude-3-opus" {})
      initialResponse).model ≠ "" ∧
    (_process_response_item (RawItem.message_start "claude-3-haiku" {})
      (_process_response_item (RawItem.message_start "claude-3-opus" {})
        initialResponse)).model = "claude-3-haiku" ∧
    ("claude-3-haiku" : String) ≠ "claude-3-opus" := by
  refine ⟨rfl, by decide, rfl, by decide⟩

/-- C8 (amended): applying a StreamStart (`message_start`) item
unconditionally sets the accumulator's model and replaces its usage with the
item's usage snapshot, leaving the events untouched — last writer wins, so a
second StreamStart overwrites even a non-empty model. -/
theorem C8_message_start_overwrites (c : CompleteResponse) (m : String) (u : UsageDict) :
    (_process_response_item (RawItem.message_start m u) c).model = m ∧
    (_process_response_item (RawItem.message_start m u) c).usage = some u ∧
    (_process_response_item (RawItem.message_start m u) c).events = c.events :=
  ⟨rfl, rfl, rfl⟩

/-- Configuration exhibiting the sync/async divergence: token enrichment on,
token histogram configured, nothing else. -/
def cfg9 : Cfg :=
  { token_histogram := true, choice_counter := false, duration_histogram := false,
    exception_counter := false, enrich_token_usage := true,
    use_legacy_attributes := true, send_prompts := false, span_is_recording := true }

/-- C9: on a zero-item stream with token enrichment enabled and a token
histogram configured, the sync generator (whose token block initializes
`completion_tokens = -1`) sets token span attributes and records an
input-token histogram observation, while the async generator — missing that
initialization — references `completion_tokens` before assignment, its
`except` swallows the resulting NameError, and no token telemetry is
recorded: the two observers are not behaviorally identical. -/
theorem C9_sync_async_diverge :
    (build_from_streaming_response cfg9 env0 noFailures [] none none).forwarded =
      (abuild_from_streaming_response cfg9 env0 noFailures [] none none).forwarded ∧
    (build_from_streaming_response cfg9 env0 noFailures [] none none).effects =
      [Effect.setAttr AttrKey.usage_prompt_tokens (AttrVal.int 3),
       Effect.setAttr AttrKey.usage_completion_tokens (AttrVal.int (-1)),
       Effect.setAttr AttrKey.usage_total_tokens (AttrVal.int 2),
       Effect.setAttr AttrKey.usage_cache_read_input_tokens (AttrVal.int 0),
       Effect.setAttr AttrKey.usage_cache_creation_input_tokens (AttrVal.int 0),
       Effect.tokenHistRecord 3 TokenType.input,
       Effect.setStatusOK, Effect.spanEnd] ∧
    (abuild_from_streaming_response cfg9 env0 noFailures [] none none).effects =
      [Effect.logWarning, Effect.setStatusOK, Effect.spanEnd] ∧
    (build_from_streaming_response cfg9 env0 noFailures [] none none).effects ≠
      (abuild_from_streaming_response cfg9 env0 noFailures [] none none).effects := by
  refine ⟨rfl, by decide, by decide, by decide⟩

/-- Completion output is never token-usage telemetry. -/
theorem completionOutput_not_tokenUsage : ∀ e : Effect, isCompletionOutput e = true →
    isTokenUsageEffect e = false := by
  intro e hp
  match e, hp with
  | Effect.setAttr k v, hp =>
      cases k <;> simp_all [isCompletionOutput, isTokenUsageEffect, isUsageKey]
  | Effect.addEvent s i fr, hp => rfl
  | Effect.tokenHistRecord v t, hp => simp [isCompletionOutput] at hp
  | Effect.choiceCounterAdd fr, hp => simp [isCompletionOutput] at hp
  | Effect.exceptionCounterAdd x, hp => rfl
  | Effect.durationRecord cc, hp => rfl
  | Effect.setStatusOK, hp => rfl
  | Effect.spanEnd, hp => rfl
  | Effect.logWarning, hp => rfl

/-- With the enrichment flag off, finalization emits no token-usage effect,
whatever else happens. -/
theorem finalize_enrich_false_tokenCount (cfg : Cfg) (env : Env) (f : Failures)
    (c : CompleteResponse) (he : cfg.enrich_token_usage = false) :
    (finalize cfg env f c).countP isTokenUsageEffect = 0 := by
  have hSCzero : (_set_completions cfg c.events).countP isTokenUsageEffect = 0 :=
    countP_zero_of_excluded (fun e h => _set_completions_shape h)
      completionOutput_not_tokenUsage
  have hSCtake : ∀ k : Nat,
      ((_set_completions cfg c.events).take k).countP isTokenUsageEffect = 0 :=
    fun k => countP_zero_of_excluded
      (fun e h => _set_completions_shape (List.take_subset k _ h))
      completionOutput_not_tokenUsage
  unfold finalize
  split
  · rfl
  · cases hD : cfg.duration_histogram <;> cases hS : cfg.send_prompts <;>
      cases hCF : f.completionsFailsAfter <;>
      simp [he, hD, hS, hCF, List.countP_append, hSCzero, hSCtake,
        List.countP_cons, isTokenUsageEffect]

/-- C10: when the enrich-token-usage flag is false at finalization, no
token-usage span attributes (prompt, completion, total, cache-read,
cache-creation, response model), no token-histogram observations and no
per-finish-reason choice-counter increments occur — for every source item
sequence (including ones that report usage counts and create event slots),
every other configuration and every collaborator failure injection. -/
theorem C10_enrich_off_no_token_effects (cfg : Cfg) (env : Env) (f : Failures)
    (items : List RawItem) :
    ((build_from_streaming_response { cfg with enrich_token_usage := false } env f
        items none none).effects.countP isTokenUsageEffect) = 0 := by
  have hb : build_from_streaming_response { cfg with enrich_token_usage := false } env f
      items none none =
      ⟨items, Termination.normal,
        finalize { cfg with enrich_token_usage := false } env f
          (foldResponse items initialResponse),
        foldResponse items initialResponse⟩ := by
    simp [build_from_streaming_response, runLoop_none]
  rw [hb]
  exact finalize_enrich_false_tokenCount _ env f _ rfl

end AnthropicStreaming
